import Mathlib

/-!
Verification development for the threejs3d 3D-Tiles streaming core
(src/src/renderer/3dtiles/Tileset.js and the isDataUri helper).

The JavaScript code is shallowly embedded: JS numbers are modelled as
rationals (integers where only counters are involved), JS arrays as lists,
in-place index assignment as List.set, and the per-frame mutation of the
tileset object as explicit state passing over records.  External
collaborators that are not part of this repository (the traversal engine
Cesium3DTilesetTraversal.selectTiles, the per-tile Tile.process effect, and
the request layer that grants or denies a request) enter as parameters or
as oracle fields, exactly at the call sites where Tileset.js invokes them.
-/

namespace ThreeJS3D

/-- Content states of a tile, from scene/Cesium3DTileContentState (the
states named by Tileset.js and the spec: UNLOADED, LOADING, PROCESSING,
READY, EXPIRED, FAILED). -/
inductive Cesium3DTileContentState where
  | UNLOADED
  | LOADING
  | PROCESSING
  | READY
  | EXPIRED
  | FAILED
deriving DecidableEq, Repr

/-- Refinement modes, from scene/Cesium3DTileRefine. -/
inductive Cesium3DTileRefine where
  | ADD
  | REPLACE
deriving DecidableEq, Repr

/-- A tile as seen by the Tileset.js pipeline functions.  The fields are
the parts of a Tile object that Tileset.js reads: its priority scalar,
content state, content classification flags, and the outcome of the
external request-layer admission (tile.requestContent() returning
true/false, which depends on the global concurrent-request cap — an
external collaborator, so it is carried as an oracle field).
contentSize stands for the count/byte aggregate that
statistics.decrementLoadCounts(tile.content) subtracts. -/
structure Tile where
  id : Nat
  priority : ℚ
  contentState : Cesium3DTileContentState
  hasEmptyContent : Bool
  hasTilesetContent : Bool
  contentExpired : Bool
  requestGrants : Bool
  contentSize : ℤ
deriving DecidableEq, Repr

/-- The counters of scene/Cesium3DTilesetStatistics that Tileset.js
touches.  loadCounts aggregates the per-content count totals moved by
incrementLoadCounts/decrementLoadCounts. -/
structure Cesium3DTilesetStatistics where
  numberOfPendingRequests : ℤ
  numberOfTilesProcessing : ℤ
  numberOfTilesWithContentReady : ℤ
  numberOfAttemptedRequests : ℤ
  loadCounts : ℤ
deriving DecidableEq, Repr

/-- The load-pipeline state threaded through requestContent and the
promise continuations: the statistics object, the processing queue, the
log of _cache.add calls made by handleTileSuccess, and the log of
destroySubtree calls (the destroySubtree(tileset, tile) call at
Tileset.js:207 is commented out in the source, so nothing in this
development ever appends to destroyedSubtrees). -/
structure PipelineState where
  statistics : Cesium3DTilesetStatistics
  processingQueue : List Tile
  cacheAdds : List Nat
  destroyedSubtrees : List Nat
deriving DecidableEq, Repr

/-- requestContent (Tileset.js:191-218): skip empty content; count an
attempted request when the request layer denies it; on an expired tile
either do nothing for a tileset-content tile (the destroySubtree call is
commented out at line 207) or decrement the load counts and
numberOfTilesWithContentReady; then increment numberOfPendingRequests.
The two promise continuations registered at lines 216-217 are modelled
separately (addToProcessingQueue, handleTileSuccess, handleTileFailure,
runOutcome). -/
def requestContent (st : PipelineState) (tile : Tile) : PipelineState :=
  if tile.hasEmptyContent then st
  else if !tile.requestGrants then
    { st with statistics :=
        { st.statistics with numberOfAttemptedRequests :=
            st.statistics.numberOfAttemptedRequests + 1 } }
  else
    let st1 :=
      if tile.contentExpired then
        if tile.hasTilesetContent then
          st
        else
          { st with statistics :=
              { st.statistics with
                  loadCounts := st.statistics.loadCounts - tile.contentSize,
                  numberOfTilesWithContentReady :=
                    st.statistics.numberOfTilesWithContentReady - 1 } }
      else st
    { st1 with statistics :=
        { st1.statistics with numberOfPendingRequests :=
            st1.statistics.numberOfPendingRequests + 1 } }

/-- addToProcessingQueue (Tileset.js:140-147): the continuation fired when
the content is ready to process — push the tile on the processing queue,
decrement numberOfPendingRequests, increment numberOfTilesProcessing. -/
def addToProcessingQueue (st : PipelineState) (tile : Tile) : PipelineState :=
  { st with
      processingQueue := st.processingQueue ++ [tile],
      statistics :=
        { st.statistics with
            numberOfPendingRequests := st.statistics.numberOfPendingRequests - 1,
            numberOfTilesProcessing := st.statistics.numberOfTilesProcessing + 1 } }

/-- handleTileSuccess (Tileset.js:149-165): decrement
numberOfTilesProcessing; for a non-tileset-content tile also increment
the load counts and numberOfTilesWithContentReady and add the tile to the
cache (recorded in cacheAdds).  The tileLoad event is out of scope. -/
def handleTileSuccess (st : PipelineState) (tile : Tile) : PipelineState :=
  let st1 :=
    { st with statistics :=
        { st.statistics with numberOfTilesProcessing :=
            st.statistics.numberOfTilesProcessing - 1 } }
  if tile.hasTilesetContent then st1
  else
    { st1 with
        statistics :=
          { st1.statistics with
              loadCounts := st1.statistics.loadCounts + tile.contentSize,
              numberOfTilesWithContentReady :=
                st1.statistics.numberOfTilesWithContentReady + 1 },
        cacheAdds := st1.cacheAdds ++ [tile.id] }

/-- handleTileFailure (Tileset.js:167-189): if the tile is in the
processing queue (indexOf >= 0) the failure happened during processing,
so decrement numberOfTilesProcessing; otherwise the request itself
failed, so decrement numberOfPendingRequests.  The tileFailed event and
console logging are out of scope. -/
def handleTileFailure (st : PipelineState) (tile : Tile) : PipelineState :=
  if tile ∈ st.processingQueue then
    { st with statistics :=
        { st.statistics with numberOfTilesProcessing :=
            st.statistics.numberOfTilesProcessing - 1 } }
  else
    { st with statistics :=
        { st.statistics with numberOfPendingRequests :=
            st.statistics.numberOfPendingRequests - 1 } }

/-- The possible deliveries of the two promise chains registered by
requestContent (Tileset.js:216-217): contentReadyToProcessPromise
resolving then contentReadyPromise resolving (success), resolving then
rejecting (failure during processing, including cancellation reported as
failure), or contentReadyPromise rejecting without the tile ever reaching
the processing queue (failure while the request was in flight). -/
inductive RequestOutcome where
  | readyThenSuccess
  | readyThenFailure
  | failureBeforeReady
deriving DecidableEq, Repr

/-- Sequential delivery of the continuations registered by requestContent
for one request, one case per possible outcome. -/
def runOutcome (st : PipelineState) (tile : Tile) : RequestOutcome → PipelineState
  | RequestOutcome.readyThenSuccess => handleTileSuccess (addToProcessingQueue st tile) tile
  | RequestOutcome.readyThenFailure => handleTileFailure (addToProcessingQueue st tile) tile
  | RequestOutcome.failureBeforeReady => handleTileFailure st tile

/-- sortRequestByPriority (Tileset.js:95-97): the JS comparator
a._priority - b._priority sorts ascending by priority; as a Bool
less-or-equal test it is this. -/
def sortRequestByPriority (a b : Tile) : Bool :=
  decide (a.priority ≤ b.priority)

/-- filterProcessingQueue loop body (Tileset.js:122-138): one pass with a
read cursor i and a running removeCount, shifting each surviving element
removeCount slots to the left (the write happens only when
removeCount > 0, as in the source).  The first argument is fuel for the
remaining iterations; the loop runs for i = 0 .. length-1, so fuel =
length at entry makes the recursion structural without changing the
computed result. -/
def fpqAux (p : Tile → Bool) : Nat → List Tile → Nat → Nat → List Tile × Nat
  | 0, arr, _, rc => (arr, rc)
  | fuel + 1, arr, i, rc =>
      if h : i < arr.length then
        let tile := arr.get ⟨i, h⟩
        if p tile then
          if 0 < rc then fpqAux p fuel (arr.set (i - rc) tile) (i + 1) rc
          else fpqAux p fuel arr (i + 1) rc
        else
          fpqAux p fuel arr (i + 1) (rc + 1)
      else
        (arr, rc)

/-- The predicate the processing-queue filter keeps:
tile._contentState === Cesium3DTileContentState.PROCESSING. -/
def tileIsProcessing (t : Tile) : Bool :=
  t.contentState == Cesium3DTileContentState.PROCESSING

/-- filterProcessingQueue (Tileset.js:122-138): run the compaction pass,
then truncate the array length by the final removeCount
(tiles.length -= removeCount). -/
def filterProcessingQueue (tiles : List Tile) : List Tile :=
  let r := fpqAux tileIsProcessing tiles.length tiles 0 0
  r.1.take (tiles.length - r.2)

/-- One entry of the resident cache (scene/Cesium3DTilesetCache): a tile
id, its resident byte size, and the frame in which it was last touched. -/
structure CacheEntry where
  tileId : Nat
  bytes : ℤ
  lastTouchedFrame : Nat
deriving DecidableEq, Repr

/-- Total resident bytes of a cache list. -/
def totalResidentBytes (cache : List CacheEntry) : ℤ :=
  (cache.map (fun e => e.bytes)).sum

/-- The per-frame tileset state read and written by
Tileset.updateFixedFrame: readiness and visibility, the requested-tiles
list, the pipeline state, and the resident cache with its byte budget.
cacheList is ordered least-recently-used first. -/
structure FrameTileset where
  ready : Bool
  visible : Bool
  requestedTiles : List Tile
  pipeline : PipelineState
  cacheList : List CacheEntry
  maximumMemoryUsage : ℤ
  currentFrame : Nat
deriving DecidableEq, Repr

/-- requestTiles (Tileset.js:99-109): sort the requested-tiles list with
sortRequestByPriority, then call requestContent on each element in
order.  JS Array.prototype.sort with a numeric comparator produces a
permutation of the array sorted by that comparator; mergeSort with the
corresponding Bool test models it. -/
def requestTiles (ts : FrameTileset) : FrameTileset :=
  let sorted := ts.requestedTiles.mergeSort sortRequestByPriority
  { ts with
      requestedTiles := sorted,
      pipeline := sorted.foldl requestContent ts.pipeline }

/-- processTiles (Tileset.js:111-120): filter the processing queue, then
call tile.process(tileset, frameState) on each remaining tile.
Tile.process lives in Tile.js (an external collaborator of this file),
so its effect on the pipeline state is the oracle processEff. -/
def processTiles (processEff : PipelineState → Tile → PipelineState)
    (ts : FrameTileset) : FrameTileset :=
  let filtered := filterProcessingQueue ts.pipeline.processingQueue
  let pl := { ts.pipeline with processingQueue := filtered }
  { ts with pipeline := filtered.foldl processEff pl }

/-- Tileset.updateFixedFrame (Tileset.js:1058-1101): return unchanged
unless ready and visible; clear the previous frame's requested-tiles
list; run Cesium3DTilesetTraversal.selectTiles (an external collaborator,
here the oracle selectTilesExternal returning the tiles it appends to
_requestedTiles); then requestTiles and processTiles.  The calls to
updateTiles and unloadTiles that would follow (lines 1095-1100) are
commented out in the source, as are the statistics reset, the dynamic
screen-space-error update and the cache reset (lines 1066-1079), so this
frame update performs no cache maintenance at all. -/
def updateFixedFrame (selectTilesExternal : FrameTileset → List Tile)
    (processEff : PipelineState → Tile → PipelineState)
    (ts : FrameTileset) : FrameTileset :=
  if !(ts.ready && ts.visible) then ts
  else
    let cleared := { ts with requestedTiles := [] }
    let traversed := { cleared with requestedTiles := selectTilesExternal cleared }
    processTiles processEff (requestTiles traversed)

/-- unloadTile (Tileset.js:328-333) as the cache eviction callback would
apply it to one entry: fire tileUnload, subtract the load counts, release
the content.  Recorded here for reference; updateFixedFrame never reaches
it because the unloadTiles call at line 1099 is commented out. -/
def unloadTileEntry (stats : Cesium3DTilesetStatistics) (bytes : ℤ) :
    Cesium3DTilesetStatistics :=
  { stats with
      loadCounts := stats.loadCounts - bytes,
      numberOfTilesWithContentReady := stats.numberOfTilesWithContentReady - 1 }

/-- Render commands as the updateTiles command-list shuffle sees them:
the dedicated clear command, opaque draw commands identified by an id,
and the undefined slots that the JS length extension
(commandList.length += backfaceCommandsLength) creates before they are
overwritten. -/
inductive RenderCommand where
  | clear (stencil : Nat) (pass : Nat)
  | draw (id : Nat)
  | undef
deriving DecidableEq, Repr

/-- stencilClearCommand (Tileset.js:220-223): new ClearCommand with
stencil 0 and pass 4. -/
def stencilClearCommand : RenderCommand :=
  RenderCommand.clear 0 4

/-- The first copy loop of updateTiles (Tileset.js:298-300): for
i = addedCommandsLength-1 down to 0,
commandList[lengthBeforeUpdate + backfaceCommandsLength + i] =
commandList[lengthBeforeUpdate + i].  The recursion argument is the loop
counter plus one, so shiftCommandsLoop arr lb blen k performs the
iterations for i = k-1 down to 0 in source order. -/
def shiftCommandsLoop (arr : List RenderCommand) (lb blen : Nat) :
    Nat → List RenderCommand
  | 0 => arr
  | k + 1 =>
      shiftCommandsLoop
        (arr.set (lb + blen + k) (arr.getD (lb + k) RenderCommand.undef))
        lb blen k

/-- The second copy loop of updateTiles (Tileset.js:303-305): for
i = 0 to backfaceCommandsLength-1,
commandList[lengthBeforeUpdate + i] = backfaceCommands[i]. -/
def writeBackfacesLoop (arr : List RenderCommand) (lb : Nat) :
    List RenderCommand → List RenderCommand
  | [] => arr
  | b :: bs => writeBackfacesLoop (arr.set lb b) (lb + 1) bs

/-- updateTiles (Tileset.js:225-326), restricted to its effect on the
frame command list.  skipLOD, mixed and stencilBuf are
tileset._skipLevelOfDetail, tileset._hasMixedContent and
frameState.context.stencilBuffer; selectedLength is
tileset._selectedTiles.length.  The commands pushed by the per-tile
update loops (lines 248-260, external Tile.update) are the parameter
added, and the backface commands collected into
tileset._backfaceCommands by those updates are the parameter backfaces.
When the bivariate visibility test is active the stencil clear command is
pushed first, the command list is lengthened by the backface count, the
added commands are copied towards the back (descending loop) and the
backface commands are written over the vacated region (ascending loop). -/
def updateTiles (commandList : List RenderCommand)
    (skipLOD mixed stencilBuf : Bool) (selectedLength : Nat)
    (added backfaces : List RenderCommand) : List RenderCommand :=
  let bivariateVisibilityTest :=
    skipLOD && mixed && stencilBuf && decide (0 < selectedLength)
  let c1 := if bivariateVisibilityTest then commandList ++ [stencilClearCommand]
            else commandList
  let lengthBeforeUpdate := c1.length
  let c2 := c1 ++ added
  if bivariateVisibilityTest then
    let backfaceCommandsLength := backfaces.length
    let addedCommandsLength := c2.length - lengthBeforeUpdate
    let c3 := c2 ++ List.replicate backfaceCommandsLength RenderCommand.undef
    let c4 := shiftCommandsLoop c3 lengthBeforeUpdate backfaceCommandsLength
                addedCommandsLength
    writeBackfacesLoop c4 lengthBeforeUpdate backfaces
  else c2

/-- CesiumMath.clamp(value, min, max). -/
def clamp (value lo hi : ℚ) : ℚ :=
  min (max value lo) hi

/-- The tileset fields read and written by
updateDynamicScreenSpaceError. -/
structure DsseTileset where
  dynamicScreenSpaceErrorDensity : ℚ
  dynamicScreenSpaceErrorHeightFalloff : ℚ
  dynamicScreenSpaceErrorFactor : ℚ
  dynamicScreenSpaceErrorComputedDensity : ℚ
deriving DecidableEq, Repr

/-- The frame quantities that the bounding-volume case analysis of
updateDynamicScreenSpaceError (Tileset.js:34-72) extracts before the
density formula runs: the camera height, the dot product of the view
direction with the local up direction, and the minimum/maximum height of
the band estimated from the root bounding volume.  That case analysis
uses geometry classes external to this repository, so its four outputs
are taken as the input record here. -/
structure DsseFrameInput where
  height : ℚ
  dotDirectionUp : ℚ
  minimumHeight : ℚ
  maximumHeight : ℚ
deriving DecidableEq, Repr

/-- heightClose (Tileset.js:76): the height where the density starts to
fall off. -/
def heightCloseOf (ts : DsseTileset) (inp : DsseFrameInput) : ℚ :=
  inp.minimumHeight + (inp.maximumHeight - inp.minimumHeight) *
    ts.dynamicScreenSpaceErrorHeightFalloff

/-- updateDynamicScreenSpaceError density formula (Tileset.js:74-92):
t clamps the camera height position in the falloff band to the unit
interval, the horizon factor is (1 - |dot|) weakened by (1 - t), and the
configured density scaled by the horizon factor is written to
_dynamicScreenSpaceErrorComputedDensity — the only field written. -/
def updateDynamicScreenSpaceError (ts : DsseTileset) (inp : DsseFrameInput) :
    DsseTileset :=
  let heightClose := heightCloseOf ts inp
  let heightFar := inp.maximumHeight
  let t := clamp ((inp.height - heightClose) / (heightFar - heightClose)) 0 1
  let dot := |inp.dotDirectionUp|
  let horizonFactor := (1 - dot) * (1 - t)
  { ts with dynamicScreenSpaceErrorComputedDensity :=
      ts.dynamicScreenSpaceErrorDensity * horizonFactor }

/-- The two configuration fields guarded by setters on Tileset. -/
structure TilesetConfig where
  maximumScreenSpaceError : ℚ
  maximumMemoryUsage : ℚ
deriving DecidableEq, Repr

/-- Modelled from the spec: Check.typeOf.number.greaterThanOrEquals
(core/Check.js, not under src/) rejects, with a synchronous
precondition-style DeveloperError, any value strictly below the limit,
and otherwise passes; invalid values are never clamped. -/
def checkNumberGreaterThanOrEquals (name : String) (value limit : ℚ) :
    Except String Unit :=
  if value < limit then
    Except.error (name ++ " must be greater than or equal to " ++ toString limit)
  else
    Except.ok ()

/-- set maximumScreenSpaceError (Tileset.js:1125-1131): check value >= 0,
then store it.  An error result models the thrown DeveloperError, in
which case no assignment happens and the caller keeps the old config. -/
def setMaximumScreenSpaceError (ts : TilesetConfig) (value : ℚ) :
    Except String TilesetConfig :=
  match checkNumberGreaterThanOrEquals "maximumScreenSpaceError" value 0 with
  | Except.error e => Except.error e
  | Except.ok _ => Except.ok { ts with maximumScreenSpaceError := value }

/-- set maximumMemoryUsage (Tileset.js:1137-1143): check value >= 0, then
store it (the source passes the name string "value" to the check). -/
def setMaximumMemoryUsage (ts : TilesetConfig) (value : ℚ) :
    Except String TilesetConfig :=
  match checkNumberGreaterThanOrEquals "value" value 0 with
  | Except.error e => Except.error e
  | Except.ok _ => Except.ok { ts with maximumMemoryUsage := value }

/-- A tile header from the tileset JSON: its refine mode and its children
headers, the two parts of tilesetJson that the loadTileset stack loop
reads for the _allTilesAdditive flag. -/
inductive TileHeader where
  | node (refine : Cesium3DTileRefine) (children : List TileHeader)

mutual

/-- Every tile of a header tree (itself and all tiles reachable through
the children lists) has refine mode ADD. -/
def headerAllAdditive : TileHeader → Bool
  | TileHeader.node r cs => (r == Cesium3DTileRefine.ADD) && headersAllAdditive cs

/-- headerAllAdditive over a list of headers. -/
def headersAllAdditive : List TileHeader → Bool
  | [] => true
  | c :: cs => headerAllAdditive c && headersAllAdditive cs

end

mutual

/-- Number of tiles in a header tree. -/
def headerCount : TileHeader → Nat
  | TileHeader.node _ cs => 1 + headersCount cs

/-- Total number of tiles in a list of header trees. -/
def headersCount : List TileHeader → Nat
  | [] => 0
  | c :: cs => headerCount c + headersCount cs

end

theorem headersCount_append (a b : List TileHeader) :
    headersCount (a ++ b) = headersCount a + headersCount b := by
  induction a with
  | nil => simp [headersCount]
  | cons c cs ih => simp [headersCount, ih]; omega

theorem headersCount_reverse (l : List TileHeader) :
    headersCount l.reverse = headersCount l := by
  induction l with
  | nil => rfl
  | cons c cs ih =>
      simp [List.reverse_cons, headersCount_append, headersCount, ih]
      omega

/-- The loadTileset stack loop (Tileset.js:998-1023), restricted to its
effect on this._allTilesAdditive: pop a tile, conjoin
(tile.refine === Cesium3DTileRefine.ADD) into the flag, push its children
(JS push/pop works at the array end, so pushing children 0..n-1 leaves
the last child on top — the reversed children go on the front of the
stack list here).  Tile construction, statistics.numberOfTilesTotal and
the child-bounds optimization check are omitted as they do not touch the
flag. -/
def loadTilesetAdditiveLoop : List TileHeader → Bool → Bool
  | [], flag => flag
  | TileHeader.node r cs :: rest, flag =>
      loadTilesetAdditiveLoop (cs.reverse ++ rest)
        (flag && (r == Cesium3DTileRefine.ADD))
termination_by stack _ => headersCount stack
decreasing_by
  simp [headersCount_append, headersCount_reverse, headersCount, headerCount]

/-- The value of this._allTilesAdditive after Tileset.loadTileset returns,
from its value on entry and the root header of the tileset JSON. -/
def loadTilesetAllTilesAdditive (root : TileHeader) (entry : Bool) : Bool :=
  loadTilesetAdditiveLoop [root] entry

/-- Case-insensitive anchored match of a literal pattern, the semantics
of RegExp.prototype.test for a regex of the form /^literal/i whose
literal has no uppercase letters: character i of the input, lowercased,
must equal character i of the pattern. -/
def caseInsensitiveStartMatch : List Char → List Char → Bool
  | [], _ => true
  | _ :: _, [] => false
  | p :: ps, c :: cs => (c.toLower == p) && caseInsensitiveStartMatch ps cs

/-- dataUriRegex.test for the regex at src/unnamed/part_000 line 3,
/^data:/i. -/
def dataUriRegexTest (s : List Char) : Bool :=
  caseInsensitiveStartMatch "data:".data s

/-- isDataUri (src/unnamed/part_000:15-21): the debug-build
Check.typeOf.string assertion always passes for a string argument, and
the result is the regex test. -/
def isDataUri (uri : String) : Bool :=
  dataUriRegexTest uri.data

/-- Concrete pipeline state (empty queues, zero counters) used by the
closed counterexample and witness theorems. -/
def examplePipelineState : PipelineState :=
  { statistics :=
      { numberOfPendingRequests := 0
        numberOfTilesProcessing := 0
        numberOfTilesWithContentReady := 1
        numberOfAttemptedRequests := 0
        loadCounts := 10 }
    processingQueue := []
    cacheAdds := []
    destroyedSubtrees := [] }

/-- Concrete expired tile with tileset content (an organizational tile
pointing at a nested external tileset) whose reload request is granted. -/
def exampleExpiredSubtreeTile : Tile :=
  { id := 3
    priority := 1
    contentState := Cesium3DTileContentState.EXPIRED
    hasEmptyContent := false
    hasTilesetContent := true
    contentExpired := true
    requestGrants := true
    contentSize := 4 }

/-- Concrete fresh tile (unloaded, not in any processing queue) whose
request is granted, used by closed witness theorems. -/
def exampleFreshTile : Tile :=
  { id := 9
    priority := 2
    contentState := Cesium3DTileContentState.UNLOADED
    hasEmptyContent := false
    hasTilesetContent := false
    contentExpired := false
    requestGrants := true
    contentSize := 5 }

/-- Concrete ready, visible tileset whose resident cache holds one entry
of 100 bytes last touched in an earlier frame, with a memory budget of
0 bytes — over budget, with the least-recently-used entry not touched
this frame. -/
def exampleOverBudgetTileset : FrameTileset :=
  { ready := true
    visible := true
    requestedTiles := []
    pipeline := examplePipelineState
    cacheList := [{ tileId := 7, bytes := 100, lastTouchedFrame := 0 }]
    maximumMemoryUsage := 0
    currentFrame := 5 }

/-! Theorems. -/

theorem caseInsensitiveStartMatch_iff (pat : List Char) :
    ∀ s : List Char,
      caseInsensitiveStartMatch pat s = true ↔ pat <+: s.map Char.toLower := by
  induction pat with
  | nil =>
      intro s
      simp only [caseInsensitiveStartMatch]
      simp [ List.nil_prefix]
  | cons p ps ih =>
      intro s
      cases s with
      | nil => simp [caseInsensitiveStartMatch]
      | cons c cs =>
          simp only [caseInsensitiveStartMatch, Bool.and_eq_true, beq_iff_eq,
            ih, List.map_cons, List.cons_prefix_cons]
          constructor
          · rintro ⟨h1, h2⟩; exact ⟨h1.symm, h2⟩
          · rintro ⟨h1, h2⟩; exact ⟨h1.symm, h2⟩

/-- C10: isDataUri uri is true exactly when uri starts with the five
characters data: compared case-insensitively (so DATA: also matches), and
false for every other string, in particular strings containing data: only
at a later position. -/
theorem isDataUri_iff_caseInsensitive_data_start (uri : String) :
    isDataUri uri = true ↔ "data:".data <+: uri.data.map Char.toLower := by
  unfold isDataUri dataUriRegexTest
  exact caseInsensitiveStartMatch_iff _ _

/-- C7: assigning a negative value to maximumScreenSpaceError or
maximumMemoryUsage fails synchronously with a precondition-style error
(leaving the configuration unchanged, since the error result carries no
updated configuration), while a nonnegative value is stored exactly,
never clamped. -/
theorem tilesetConfigSetters_reject_negative_store_exact
    (ts : TilesetConfig) (v : ℚ) :
    (v < 0 →
      (∃ e, setMaximumScreenSpaceError ts v = Except.error e) ∧
      (∃ e, setMaximumMemoryUsage ts v = Except.error e)) ∧
    (0 ≤ v →
      setMaximumScreenSpaceError ts v =
        Except.ok { ts with maximumScreenSpaceError := v } ∧
      setMaximumMemoryUsage ts v =
        Except.ok { ts with maximumMemoryUsage := v }) := by
  constructor
  · intro hv
    constructor
    · unfold setMaximumScreenSpaceError checkNumberGreaterThanOrEquals
      rw [if_pos hv]
      exact ⟨_, rfl⟩
    · unfold setMaximumMemoryUsage checkNumberGreaterThanOrEquals
      rw [if_pos hv]
      exact ⟨_, rfl⟩
  · intro hv
    have hnv : ¬ v < 0 := not_lt.mpr hv
    constructor <;>
      simp [setMaximumScreenSpaceError, setMaximumMemoryUsage,
        checkNumberGreaterThanOrEquals, hnv]

theorem tilesetConfigSetters_witness :
    ((-1 : ℚ) < 0 ∧
      (∃ e, setMaximumScreenSpaceError ⟨16, 512⟩ (-1) = Except.error e) ∧
      (∃ e, setMaximumMemoryUsage ⟨16, 512⟩ (-1) = Except.error e)) ∧
    ((0 : ℚ) ≤ 2 ∧
      setMaximumScreenSpaceError ⟨16, 512⟩ 2 = Except.ok ⟨2, 512⟩ ∧
      setMaximumMemoryUsage ⟨16, 512⟩ 2 = Except.ok ⟨16, 2⟩) :=
  ⟨⟨by norm_num,
    (tilesetConfigSetters_reject_negative_store_exact ⟨16, 512⟩ (-1)).1
      (by norm_num)⟩,
   ⟨by norm_num,
    (tilesetConfigSetters_reject_negative_store_exact ⟨16, 512⟩ 2).2
      (by norm_num)⟩⟩

/-- C2: requestTiles sorts the requested-tiles list ascending by the
priority scalar before any request is issued, and only then folds
requestContent over the sorted list in order, so requests are issued in
non-decreasing priority order. -/
theorem requestTiles_sorted_before_issue (ts : FrameTileset) :
    List.Pairwise (fun a b : Tile => a.priority ≤ b.priority)
      (requestTiles ts).requestedTiles ∧
    List.Perm (requestTiles ts).requestedTiles ts.requestedTiles ∧
    (requestTiles ts).pipeline =
      List.foldl requestContent ts.pipeline (requestTiles ts).requestedTiles := by
  refine ⟨?_, ?_, rfl⟩
  · have htrans : ∀ a b c : Tile, sortRequestByPriority a b = true →
        sortRequestByPriority b c = true → sortRequestByPriority a c = true := by
      intro a b c hab hbc
      simp only [sortRequestByPriority, decide_eq_true_eq] at *
      exact le_trans hab hbc
    have htotal : ∀ a b : Tile,
        (sortRequestByPriority a b || sortRequestByPriority b a) = true := by
      intro a b
      simp only [sortRequestByPriority, Bool.or_eq_true, decide_eq_true_eq]
      exact le_total a.priority b.priority
    have h := List.sorted_mergeSort htrans htotal ts.requestedTiles
    have h2 := h.imp
      (fun hab => by
        simpa [sortRequestByPriority, decide_eq_true_eq] using hab)
    simpa [requestTiles] using h2
  · simpa [requestTiles] using
      List.mergeSort_perm ts.requestedTiles sortRequestByPriority

theorem headersAllAdditive_append (a b : List TileHeader) :
    headersAllAdditive (a ++ b) = (headersAllAdditive a && headersAllAdditive b) := by
  induction a with
  | nil => simp [headersAllAdditive]
  | cons c cs ih => simp [headersAllAdditive, ih, Bool.and_assoc]

theorem headersAllAdditive_reverse (l : List TileHeader) :
    headersAllAdditive l.reverse = headersAllAdditive l := by
  induction l with
  | nil => rfl
  | cons c cs ih =>
      simp [List.reverse_cons, headersAllAdditive_append, headersAllAdditive, ih,
        Bool.and_comm]

theorem loadTilesetAdditiveLoop_eq (stack : List TileHeader) (flag : Bool) :
    loadTilesetAdditiveLoop stack flag = (flag && headersAllAdditive stack) := by
  generalize hn : headersCount stack = n
  induction n using Nat.strong_induction_on generalizing stack flag with
  | _ n ih =>
    cases stack with
    | nil => simp [loadTilesetAdditiveLoop, headersAllAdditive]
    | cons hd rest =>
        cases hd with
        | node r cs =>
            rw [loadTilesetAdditiveLoop]
            rw [ih (headersCount (cs.reverse ++ rest)) (by
              subst hn
              simp only [headersCount_append, headersCount_reverse, headersCount,
                headerCount]
              omega) _ _ rfl]
            simp [headersAllAdditive_append, headersAllAdditive_reverse,
              headersAllAdditive, headerAllAdditive, Bool.and_assoc]

/-- C9: after the loadTileset stack loop, the _allTilesAdditive flag is
true exactly when it was true on entry and every tile reachable from the
root header through the children lists has refine mode ADD. -/
theorem loadTileset_allTilesAdditive_iff (root : TileHeader) (entry : Bool) :
    loadTilesetAllTilesAdditive root entry = true ↔
      (entry = true ∧ headerAllAdditive root = true) := by
  unfold loadTilesetAllTilesAdditive
  rw [loadTilesetAdditiveLoop_eq]
  simp [headersAllAdditive]

theorem requestContent_pending_inc (st : PipelineState) (tile : Tile)
    (hempty : tile.hasEmptyContent = false)
    (hgrant : tile.requestGrants = true) :
    (requestContent st tile).statistics.numberOfPendingRequests =
      st.statistics.numberOfPendingRequests + 1 := by
  simp only [requestContent, hempty, hgrant, Bool.false_eq_true, if_false,
    Bool.not_true, Bool.false_eq_true]
  cases hexp : tile.contentExpired <;>
    cases hts : tile.hasTilesetContent <;> simp

theorem requestContent_queue_unchanged (st : PipelineState) (tile : Tile)
    (hempty : tile.hasEmptyContent = false)
    (hgrant : tile.requestGrants = true) :
    (requestContent st tile).processingQueue = st.processingQueue := by
  simp only [requestContent, hempty, hgrant, Bool.false_eq_true, if_false,
    Bool.not_true, Bool.false_eq_true]
  cases hexp : tile.contentExpired <;>
    cases hts : tile.hasTilesetContent <;> simp

/-- C3: once requestContent succeeds for a tile (incrementing
numberOfPendingRequests by one), every possible delivery of the two
registered continuations decrements numberOfPendingRequests exactly once
— via addToProcessingQueue when the content becomes ready to process, or
via handleTileFailure when the request fails first — so the counter
returns exactly to its value before the request, never off by one in
either direction, for success, failure during processing (including
cancellation reported as failure), and failure in flight alike. -/
theorem pendingRequests_decremented_exactly_once (st : PipelineState)
    (tile : Tile) (o : RequestOutcome)
    (hempty : tile.hasEmptyContent = false)
    (hgrant : tile.requestGrants = true)
    (hqueue : tile ∉ st.processingQueue) :
    (runOutcome (requestContent st tile) tile o).statistics.numberOfPendingRequests =
      st.statistics.numberOfPendingRequests := by
  have hpending := requestContent_pending_inc st tile hempty hgrant
  have hq := requestContent_queue_unchanged st tile hempty hgrant
  cases o with
  | readyThenSuccess =>
      cases hts : tile.hasTilesetContent <;>
        simp [runOutcome, addToProcessingQueue, handleTileSuccess, hts, hpending]
  | readyThenFailure =>
      have hmem : tile ∈ (requestContent st tile).processingQueue ++ [tile] := by
        simp
      simp [runOutcome, addToProcessingQueue, handleTileFailure, hmem, hpending]
  | failureBeforeReady =>
      have hnot : tile ∉ (requestContent st tile).processingQueue := by
        rw [hq]; exact hqueue
      simp [runOutcome, handleTileFailure, hnot, hpending]

theorem pendingRequests_decremented_exactly_once_witness :
    exampleFreshTile.hasEmptyContent = false ∧
    exampleFreshTile.requestGrants = true ∧
    exampleFreshTile ∉ examplePipelineState.processingQueue ∧
    (runOutcome (requestContent examplePipelineState exampleFreshTile)
        exampleFreshTile RequestOutcome.readyThenFailure).statistics.numberOfPendingRequests =
      examplePipelineState.statistics.numberOfPendingRequests :=
  ⟨rfl, rfl, by simp [examplePipelineState],
    pendingRequests_decremented_exactly_once examplePipelineState
      exampleFreshTile RequestOutcome.readyThenFailure rfl rfl
      (by simp [examplePipelineState])⟩

/-- C5 (amended): when requestContent succeeds for a tile whose content
is expired, a tile with tileset content (an organizational tile pointing
at a nested external tileset) is left entirely untouched apart from the
pending-request increment — in particular its old subtree is NOT
discarded, because the destroySubtree call at Tileset.js:207 is commented
out — while a tile with regular content keeps its old content and has its
load counts and numberOfTilesWithContentReady decremented, to be
re-added when the reload completes. -/
theorem requestContent_expired_spec (st : PipelineState) (tile : Tile)
    (hempty : tile.hasEmptyContent = false)
    (hgrant : tile.requestGrants = true)
    (hexp : tile.contentExpired = true) :
    (tile.hasTilesetContent = true →
      requestContent st tile =
        { st with statistics :=
            { st.statistics with numberOfPendingRequests :=
                st.statistics.numberOfPendingRequests + 1 } }) ∧
    (tile.hasTilesetContent = false →
      requestContent st tile =
        { st with statistics :=
            { st.statistics with
                numberOfPendingRequests := st.statistics.numberOfPendingRequests + 1,
                numberOfTilesWithContentReady :=
                  st.statistics.numberOfTilesWithContentReady - 1,
                loadCounts := st.statistics.loadCounts - tile.contentSize } }) := by
  constructor <;> intro hts <;>
    simp [requestContent, hempty, hgrant, hexp, hts]

theorem requestContent_expired_spec_witness :
    exampleExpiredSubtreeTile.hasEmptyContent = false ∧
    exampleExpiredSubtreeTile.requestGrants = true ∧
    exampleExpiredSubtreeTile.contentExpired = true ∧
    exampleExpiredSubtreeTile.hasTilesetContent = true ∧
    requestContent examplePipelineState exampleExpiredSubtreeTile =
      { examplePipelineState with statistics :=
          { examplePipelineState.statistics with numberOfPendingRequests :=
              examplePipelineState.statistics.numberOfPendingRequests + 1 } } :=
  ⟨rfl, rfl, rfl, rfl,
    (requestContent_expired_spec examplePipelineState exampleExpiredSubtreeTile
      rfl rfl rfl).1 rfl⟩

/-- C5 counterexample: a concrete expired organizational tile
(hasTilesetContent) whose request is granted; the claim says its old
subtree is discarded, but requestContent records no subtree destruction
at all (the destroyedSubtrees log stays empty), because the
destroySubtree call in the source is commented out. -/
theorem requestContent_expired_subtree_not_discarded :
    exampleExpiredSubtreeTile.contentExpired = true ∧
    exampleExpiredSubtreeTile.hasTilesetContent = true ∧
    exampleExpiredSubtreeTile.hasEmptyContent = false ∧
    exampleExpiredSubtreeTile.requestGrants = true ∧
    ¬ (exampleExpiredSubtreeTile.id ∈
        (requestContent examplePipelineState
          exampleExpiredSubtreeTile).destroyedSubtrees) ∧
    (requestContent examplePipelineState
        exampleExpiredSubtreeTile).destroyedSubtrees = [] := by
  refine ⟨rfl, rfl, rfl, rfl, ?_, ?_⟩ <;>
    simp [requestContent, examplePipelineState, exampleExpiredSubtreeTile]

/-- C1 (amended): Tileset.updateFixedFrame performs no Resident Cache
eviction at all: for every tileset state, traversal outcome and per-tile
process effect, the frame update leaves the cache list, its byte total
and the memory budget unchanged, because the unloadTiles call (and the
whole updateTiles/unloadTiles tail of the frame, Tileset.js:1095-1100) is
commented out in the source. -/
theorem updateFixedFrame_cache_unchanged
    (sel : FrameTileset → List Tile)
    (proc : PipelineState → Tile → PipelineState)
    (ts : FrameTileset) :
    (updateFixedFrame sel proc ts).cacheList = ts.cacheList ∧
    totalResidentBytes (updateFixedFrame sel proc ts).cacheList =
      totalResidentBytes ts.cacheList ∧
    (updateFixedFrame sel proc ts).maximumMemoryUsage = ts.maximumMemoryUsage := by
  unfold updateFixedFrame
  split <;> simp [processTiles, requestTiles]

/-- C1 counterexample: a concrete ready, visible tileset over its memory
budget (100 resident bytes against a budget of 0) whose single —
least-recently-used — cache entry was last touched in frame 0 while the
current frame is 5; the claim says updateFixedFrame must evict that
entry, but the frame update returns the cache list unchanged. -/
theorem updateFixedFrame_over_budget_no_eviction :
    exampleOverBudgetTileset.ready = true ∧
    exampleOverBudgetTileset.visible = true ∧
    exampleOverBudgetTileset.maximumMemoryUsage <
      totalResidentBytes exampleOverBudgetTileset.cacheList ∧
    (exampleOverBudgetTileset.cacheList.all
      (fun e => e.lastTouchedFrame != exampleOverBudgetTileset.currentFrame)) = true ∧
    exampleOverBudgetTileset.cacheList ≠ [] ∧
    (updateFixedFrame (fun _ => []) (fun pl _ => pl)
        exampleOverBudgetTileset).cacheList =
      exampleOverBudgetTileset.cacheList := by
  refine ⟨rfl, rfl, by decide, by decide, by decide, ?_⟩
  simp [updateFixedFrame, processTiles, requestTiles, exampleOverBudgetTileset]

theorem take_succ_getElem {α : Type*} (l : List α) (n : Nat) (hn : n < l.length) :
    l.take (n + 1) = l.take n ++ [l[n]] := by
  rw [List.take_succ, List.getElem?_eq_getElem hn]
  rfl

theorem take_set_self {α : Type*} (l : List α) (n : Nat) (a : α) :
    (l.set n a).take n = l.take n := by
  induction l generalizing n with
  | nil => simp
  | cons x xs ih =>
      cases n with
      | zero => simp
      | succ k => simp [List.take_succ_cons, ih]

theorem drop_succ_eq_of_drop_eq {α : Type*} {l1 l2 : List α} {i : Nat}
    (h : l1.drop i = l2.drop i) : l1.drop (i + 1) = l2.drop (i + 1) := by
  have h2 := congrArg (List.drop 1) h
  simpa [List.drop_drop] using h2

theorem getElem_eq_of_drop_eq {α : Type*} {l1 l2 : List α} {i : Nat}
    (h : l1.drop i = l2.drop i) (h1 : i < l1.length) (h2 : i < l2.length) :
    l1[i] = l2[i] := by
  have e0 : l1[i]? = l2[i]? := by
    have h3 := congrArg (fun l : List α => l[0]?) h
    simpa [List.getElem?_drop] using h3
  rw [List.getElem?_eq_getElem h1, List.getElem?_eq_getElem h2] at e0
  exact Option.some.inj e0

theorem fpqAux_spec (p : Tile → Bool) :
    ∀ (fuel : Nat) (arr orig : List Tile) (i rc : Nat),
      arr.length ≤ i + fuel →
      rc ≤ i →
      i ≤ arr.length →
      arr.length = orig.length →
      arr.drop i = orig.drop i →
      arr.take (i - rc) = (orig.take i).filter p →
      (fpqAux p fuel arr i rc).1.take (arr.length - (fpqAux p fuel arr i rc).2) =
        orig.filter p := by
  intro fuel
  induction fuel with
  | zero =>
      intro arr orig i rc hfuel hrc hi hlen hdrop htake
      have hieq : i = arr.length := by omega
      simp only [fpqAux]
      rw [← hieq, htake, List.take_of_length_le (by omega)]
  | succ fuel ih =>
      intro arr orig i rc hfuel hrc hi hlen hdrop htake
      simp only [fpqAux]
      by_cases h : i < arr.length
      · rw [dif_pos h]
        have hio : i < orig.length := by omega
        have e1 : arr[i] = orig[i] := getElem_eq_of_drop_eq hdrop h hio
        have horig : orig.take (i + 1) = orig.take i ++ [orig[i]] :=
          take_succ_getElem orig i hio
        have hdrop2 : arr.drop (i + 1) = orig.drop (i + 1) :=
          drop_succ_eq_of_drop_eq hdrop
        by_cases hp : p (arr.get ⟨i, h⟩)
        · have hporig : p orig[i] = true := by
            rw [← e1]; exact hp
          by_cases hrc0 : 0 < rc
          · rw [if_pos hp, if_pos hrc0]
            have hlen2 : (arr.set (i - rc) (arr.get ⟨i, h⟩)).length = arr.length := by
              simp
            have hres := ih (arr.set (i - rc) (arr.get ⟨i, h⟩)) orig (i + 1) rc
              (by rw [hlen2]; omega)
              (by omega)
              (by rw [hlen2]; omega)
              (by rw [hlen2, hlen])
              (by
                rw [List.drop_set, if_pos (by omega : i - rc < i + 1)]
                exact hdrop2)
              (by
                rw [show (i + 1) - rc = (i - rc) + 1 by omega]
                rw [take_succ_getElem (arr.set (i - rc) (arr.get ⟨i, h⟩)) (i - rc)
                  (by rw [hlen2]; omega)]
                rw [take_set_self, List.getElem_set_self (by rw [hlen2]; omega)]
                rw [htake, horig, List.filter_append]
                simp [hporig, e1, List.get_eq_getElem])
            rw [hlen2] at hres
            exact hres
          · rw [if_pos hp, if_neg hrc0]
            apply ih arr orig (i + 1) rc (by omega) (by omega) (by omega) hlen hdrop2
            have hrc0e : rc = 0 := by omega
            subst hrc0e
            simp only [Nat.sub_zero] at htake ⊢
            rw [take_succ_getElem arr i h, htake, horig, List.filter_append]
            simp [hporig, e1, List.get_eq_getElem]
        · rw [if_neg hp]
          have hporig : p orig[i] = false := by
            rw [← e1]
            exact Bool.eq_false_iff.mpr hp
          apply ih arr orig (i + 1) (rc + 1) (by omega) (by omega) (by omega) hlen
            hdrop2
          rw [show (i + 1) - (rc + 1) = i - rc by omega]
          rw [htake, horig, List.filter_append]
          simp [hporig]
      · rw [dif_neg h]
        show arr.take (arr.length - rc) = orig.filter p
        have hieq : i = arr.length := by omega
        rw [← hieq, htake, List.take_of_length_le (by omega)]

/-- C4: filterProcessingQueue, the in-place compaction that shifts the
surviving elements left and truncates the length, leaves the processing
queue extensionally equal to the naive filter of the queue by the
PROCESSING-state predicate — the subsequence of elements whose
contentState is PROCESSING, in their original relative order. -/
theorem filterProcessingQueue_eq_filter (tiles : List Tile) :
    filterProcessingQueue tiles = tiles.filter tileIsProcessing := by
  unfold filterProcessingQueue
  exact fpqAux_spec tileIsProcessing tiles.length tiles tiles 0 0
    (by omega) (by omega) (by omega) rfl rfl (by simp)

theorem getD_set_eq {α : Type*} (l : List α) (m : Nat) (a d : α)
    (hm : m < l.length) : (l.set m a).getD m d = a := by
  simp [List.getD_eq_getElem?_getD, List.getElem?_set, hm]

theorem getD_set_ne {α : Type*} (l : List α) (m j : Nat) (a d : α)
    (hne : m ≠ j) : (l.set m a).getD j d = l.getD j d := by
  simp [List.getD_eq_getElem?_getD, List.getElem?_set, hne]

theorem ext_of_getD_eq {α : Type*} (d : α) {l1 l2 : List α}
    (hlen : l1.length = l2.length)
    (h : ∀ j, j < l1.length → l1.getD j d = l2.getD j d) : l1 = l2 := by
  apply List.ext_getElem hlen
  intro n h1 h2
  have h3 := h n h1
  rwa [List.getD_eq_getElem l1 d h1, List.getD_eq_getElem l2 d h2] at h3

theorem length_shiftCommandsLoop (lb blen : Nat) :
    ∀ (k : Nat) (arr : List RenderCommand),
      (shiftCommandsLoop arr lb blen k).length = arr.length := by
  intro k
  induction k with
  | zero => intro arr; rfl
  | succ k ih =>
      intro arr
      simp only [shiftCommandsLoop]
      rw [ih]
      simp

theorem shiftCommandsLoop_getD (lb blen : Nat) :
    ∀ (k : Nat) (arr : List RenderCommand), lb + blen + k ≤ arr.length →
      ∀ j, (shiftCommandsLoop arr lb blen k).getD j RenderCommand.undef =
        if lb + blen ≤ j ∧ j < lb + blen + k then
          arr.getD (j - blen) RenderCommand.undef
        else arr.getD j RenderCommand.undef := by
  intro k
  induction k with
  | zero =>
      intro arr hk j
      simp only [shiftCommandsLoop]
      rw [if_neg (by omega)]
  | succ k ih =>
      intro arr hk j
      simp only [shiftCommandsLoop]
      rw [ih (arr.set (lb + blen + k) (arr.getD (lb + k) RenderCommand.undef))
        (by simp only [List.length_set]; omega) j]
      by_cases h1 : lb + blen ≤ j ∧ j < lb + blen + k
      · rw [if_pos h1, if_pos (by omega)]
        exact getD_set_ne arr (lb + blen + k) (j - blen)
          (arr.getD (lb + k) RenderCommand.undef) RenderCommand.undef (by omega)
      · by_cases h2 : j = lb + blen + k
        · subst h2
          rw [if_neg h1, if_pos (by omega)]

          rw [getD_set_eq arr (lb + blen + k)
            (arr.getD (lb + k) RenderCommand.undef) RenderCommand.undef (by omega)]
          rw [show lb + blen + k - blen = lb + k by omega]
        · rw [if_neg h1, if_neg (by omega)]
          exact getD_set_ne arr (lb + blen + k) j
            (arr.getD (lb + k) RenderCommand.undef) RenderCommand.undef (by omega)

theorem length_writeBackfacesLoop :
    ∀ (bfs arr : List RenderCommand) (lb : Nat),
      (writeBackfacesLoop arr lb bfs).length = arr.length := by
  intro bfs
  induction bfs with
  | nil => intro arr lb; rfl
  | cons b bs ih =>
      intro arr lb
      simp only [writeBackfacesLoop]
      rw [ih]
      simp

theorem writeBackfacesLoop_getD :
    ∀ (bfs arr : List RenderCommand) (lb : Nat),
      lb + bfs.length ≤ arr.length →
      ∀ j, (writeBackfacesLoop arr lb bfs).getD j RenderCommand.undef =
        if lb ≤ j ∧ j < lb + bfs.length then
          bfs.getD (j - lb) RenderCommand.undef
        else arr.getD j RenderCommand.undef := by
  intro bfs
  induction bfs with
  | nil =>
      intro arr lb hb j
      simp only [writeBackfacesLoop, List.length_nil]
      rw [if_neg (by omega)]
  | cons b bs ih =>
      intro arr lb hb j
      simp only [List.length_cons] at hb
      simp only [writeBackfacesLoop, List.length_cons]
      rw [ih (arr.set lb b) (lb + 1) (by simp only [List.length_set]; omega) j]
      by_cases h1 : lb + 1 ≤ j ∧ j < lb + 1 + bs.length
      · rw [if_pos h1, if_pos (by omega)]
        rw [show j - lb = (j - (lb + 1)) + 1 by omega]
        rfl
      · by_cases h2 : j = lb
        · rw [if_neg h1, if_pos (by omega)]
          rw [h2]
          rw [getD_set_eq arr lb b RenderCommand.undef (by omega)]
          rw [Nat.sub_self]
          rfl
        · rw [if_neg h1, if_neg (by omega)]
          exact getD_set_ne arr lb j b RenderCommand.undef (by omega)

theorem commandShuffle_spec (c1 d2 b2 : List RenderCommand) :
    writeBackfacesLoop
      (shiftCommandsLoop
        ((c1 ++ d2) ++ List.replicate b2.length RenderCommand.undef)
        c1.length b2.length d2.length)
      c1.length b2 = (c1 ++ b2) ++ d2 := by
  apply ext_of_getD_eq RenderCommand.undef
  · rw [length_writeBackfacesLoop, length_shiftCommandsLoop]
    simp only [List.length_append, List.length_replicate]
    omega
  · intro j hj
    rw [length_writeBackfacesLoop, length_shiftCommandsLoop] at hj
    simp only [List.length_append, List.length_replicate] at hj
    rw [writeBackfacesLoop_getD b2 _ c1.length
      (by
        rw [length_shiftCommandsLoop]
        simp only [List.length_append, List.length_replicate]
        omega) j]
    by_cases h1 : c1.length ≤ j ∧ j < c1.length + b2.length
    · rw [if_pos h1]
      rw [List.getD_append (c1 ++ b2) d2 RenderCommand.undef j
        (by simp only [List.length_append]; omega)]
      rw [List.getD_append_right c1 b2 RenderCommand.undef j (by omega)]
    · rw [if_neg h1]
      rw [shiftCommandsLoop_getD c1.length b2.length d2.length
        ((c1 ++ d2) ++ List.replicate b2.length RenderCommand.undef)
        (by simp only [List.length_append, List.length_replicate]; omega) j]
      by_cases h2 : c1.length + b2.length ≤ j ∧
          j < c1.length + b2.length + d2.length
      · rw [if_pos h2]
        rw [List.getD_append (c1 ++ d2)
          (List.replicate b2.length RenderCommand.undef) RenderCommand.undef
          (j - b2.length) (by simp only [List.length_append]; omega)]
        rw [List.getD_append_right c1 d2 RenderCommand.undef (j - b2.length)
          (by omega)]
        rw [List.getD_append_right (c1 ++ b2) d2 RenderCommand.undef j
          (by simp only [List.length_append]; omega)]
        congr 1
        simp only [List.length_append]
        omega
      · rw [if_neg h2]
        have hjlb : j < c1.length := by omega
        rw [List.getD_append (c1 ++ d2)
          (List.replicate b2.length RenderCommand.undef) RenderCommand.undef j
          (by simp only [List.length_append]; omega)]
        rw [List.getD_append c1 d2 RenderCommand.undef j hjlb]
        rw [List.getD_append (c1 ++ b2) d2 RenderCommand.undef j
          (by simp only [List.length_append]; omega)]
        rw [List.getD_append c1 b2 RenderCommand.undef j hjlb]

/-- C6: when the bivariate visibility test is active (skip-LOD enabled,
mixed content, a stencil buffer, and at least one selected tile),
updateTiles produces a command list in which the stencil clear command
comes right after the pre-existing commands and before every tile
command, all backface commands come next, and the frontface commands
pushed by the tile updates follow after them in their original relative
order. -/
theorem updateTiles_bivariate_command_order
    (commandList added backfaces : List RenderCommand)
    (selectedLength : Nat) (hsel : 0 < selectedLength) :
    updateTiles commandList true true true selectedLength added backfaces =
      commandList ++ stencilClearCommand :: (backfaces ++ added) := by
  have hrearr : commandList ++ stencilClearCommand :: (backfaces ++ added) =
      ((commandList ++ [stencilClearCommand]) ++ backfaces) ++ added := by
    simp
  rw [hrearr]
  have h := commandShuffle_spec (commandList ++ [stencilClearCommand]) added
    backfaces
  have hd : decide (0 < selectedLength) = true := decide_eq_true hsel
  simp only [updateTiles, hd, Bool.and_true, Bool.and_self, if_true,
    List.length_append, List.length_cons, List.length_nil,
    Nat.add_sub_cancel_left]
  simp only [List.length_append, List.length_cons, List.length_nil] at h
  exact h

theorem updateTiles_bivariate_command_order_witness :
    0 < 1 ∧
    updateTiles [RenderCommand.draw 0] true true true 1
        [RenderCommand.draw 1, RenderCommand.draw 2] [RenderCommand.draw 3] =
      [RenderCommand.draw 0] ++ stencilClearCommand ::
        ([RenderCommand.draw 3] ++
          [RenderCommand.draw 1, RenderCommand.draw 2]) :=
  ⟨Nat.one_pos,
    updateTiles_bivariate_command_order [RenderCommand.draw 0]
      [RenderCommand.draw 1, RenderCommand.draw 2] [RenderCommand.draw 3] 1
      Nat.one_pos⟩

theorem dsse_clamp_mono (x y : ℚ) (hxy : x ≤ y) : clamp x 0 1 ≤ clamp y 0 1 :=
  min_le_min (max_le_max hxy le_rfl) le_rfl

/-- C8: the dynamic screen-space-error density written by
updateDynamicScreenSpaceError — the configured density times
(1 - |dot(view direction, up)|) times (1 - t) with t the clamped position
of the camera height in the falloff band — is monotonically
non-increasing in |dot| (steeper look-down reduces the effect) and, once
the camera is above the falloff start height of a fixed bounds band,
monotonically non-increasing in camera height; and the function writes no
tileset state other than _dynamicScreenSpaceErrorComputedDensity. -/
theorem updateDynamicScreenSpaceError_spec (ts : DsseTileset)
    (minH maxH y1 y2 d1 d2 : ℚ)
    (hdens : 0 ≤ ts.dynamicScreenSpaceErrorDensity) :
    (∀ inp : DsseFrameInput,
      (updateDynamicScreenSpaceError ts inp).dynamicScreenSpaceErrorDensity =
          ts.dynamicScreenSpaceErrorDensity ∧
      (updateDynamicScreenSpaceError ts inp).dynamicScreenSpaceErrorHeightFalloff =
          ts.dynamicScreenSpaceErrorHeightFalloff ∧
      (updateDynamicScreenSpaceError ts inp).dynamicScreenSpaceErrorFactor =
          ts.dynamicScreenSpaceErrorFactor) ∧
    (|d1| ≤ |d2| →
      (updateDynamicScreenSpaceError ts
          ⟨y1, d2, minH, maxH⟩).dynamicScreenSpaceErrorComputedDensity ≤
      (updateDynamicScreenSpaceError ts
          ⟨y1, d1, minH, maxH⟩).dynamicScreenSpaceErrorComputedDensity) ∧
    (|d1| ≤ 1 →
      heightCloseOf ts ⟨y1, d1, minH, maxH⟩ < maxH →
      heightCloseOf ts ⟨y1, d1, minH, maxH⟩ ≤ y1 →
      y1 ≤ y2 →
      (updateDynamicScreenSpaceError ts
          ⟨y2, d1, minH, maxH⟩).dynamicScreenSpaceErrorComputedDensity ≤
      (updateDynamicScreenSpaceError ts
          ⟨y1, d1, minH, maxH⟩).dynamicScreenSpaceErrorComputedDensity) := by
  have hkey : ∀ yy dd : ℚ,
      (updateDynamicScreenSpaceError ts
          ⟨yy, dd, minH, maxH⟩).dynamicScreenSpaceErrorComputedDensity =
        ts.dynamicScreenSpaceErrorDensity * ((1 - |dd|) *
          (1 - clamp ((yy - (minH + (maxH - minH) *
              ts.dynamicScreenSpaceErrorHeightFalloff)) /
            (maxH - (minH + (maxH - minH) *
              ts.dynamicScreenSpaceErrorHeightFalloff))) 0 1)) :=
    fun yy dd => rfl
  refine ⟨fun inp => ⟨rfl, rfl, rfl⟩, ?_, ?_⟩
  · intro hd
    rw [hkey y1 d2, hkey y1 d1]
    set X := minH + (maxH - minH) * ts.dynamicScreenSpaceErrorHeightFalloff
      with hX
    set t := clamp ((y1 - X) / (maxH - X)) 0 1 with ht
    have htle : t ≤ 1 := by
      rw [ht]
      exact min_le_right _ _
    have h1t : 0 ≤ 1 - t := by linarith
    apply mul_le_mul_of_nonneg_left _ hdens
    apply mul_le_mul_of_nonneg_right _ h1t
    linarith
  · intro hd1 hcl hy1 hy12
    have hcl2 : minH + (maxH - minH) * ts.dynamicScreenSpaceErrorHeightFalloff <
        maxH := hcl
    rw [hkey y2 d1, hkey y1 d1]
    set X := minH + (maxH - minH) * ts.dynamicScreenSpaceErrorHeightFalloff
      with hX
    have hpos : 0 < maxH - X := by linarith
    have hdiv : (y1 - X) / (maxH - X) ≤ (y2 - X) / (maxH - X) :=
      (div_le_div_iff_of_pos_right hpos).mpr (by linarith)
    have hclamp := dsse_clamp_mono _ _ hdiv
    have hb2 : 0 ≤ 1 - |d1| := by linarith
    have h2t : 1 - clamp ((y2 - X) / (maxH - X)) 0 1 ≤
        1 - clamp ((y1 - X) / (maxH - X)) 0 1 := by linarith
    exact mul_le_mul_of_nonneg_left (mul_le_mul_of_nonneg_left h2t hb2) hdens

theorem updateDynamicScreenSpaceError_spec_witness :
    ((updateDynamicScreenSpaceError ⟨1, 1/4, 4, 0⟩
        ⟨1, 1, 0, 4⟩).dynamicScreenSpaceErrorComputedDensity ≤
      (updateDynamicScreenSpaceError ⟨1, 1/4, 4, 0⟩
        ⟨1, 0, 0, 4⟩).dynamicScreenSpaceErrorComputedDensity) ∧
    ((updateDynamicScreenSpaceError ⟨1, 1/4, 4, 0⟩
        ⟨2, 0, 0, 4⟩).dynamicScreenSpaceErrorComputedDensity ≤
      (updateDynamicScreenSpaceError ⟨1, 1/4, 4, 0⟩
        ⟨1, 0, 0, 4⟩).dynamicScreenSpaceErrorComputedDensity) :=
  ⟨(updateDynamicScreenSpaceError_spec ⟨1, 1/4, 4, 0⟩ 0 4 1 2 0 1
      (by norm_num)).2.1 (by norm_num),
   (updateDynamicScreenSpaceError_spec ⟨1, 1/4, 4, 0⟩ 0 4 1 2 0 1
      (by norm_num)).2.2 (by norm_num) (by norm_num [heightCloseOf])
      (by norm_num [heightCloseOf]) (by norm_num)⟩

end ThreeJS3D
